import Mathlib

/-!
Verification of the request-interception and mock-merging logic of the
cypress-graphql-mock library (src/index.ts), over a shallow embedding of the
relevant JavaScript values and functions.
-/

namespace CypressGraphqlMock

/-- Values of the JavaScript runtime as relevant to this library: primitives,
arrays, plain objects, class instances (such as GraphQLError or Date), and
functions.  A function value is either an uninterpreted user-supplied function
(identified by a tag) or the zero-argument closure produced by resolveMocks. -/
inductive JSVal where
  | vNull
  | vUndefined
  | vBool (b : Bool)
  | vNum (n : Int)
  | vStr (s : String)
  | vArr (elems : List JSVal)
  | vObj (fields : List (String × JSVal))
  | vInstance (className : String) (fields : List (String × JSVal))
  | vFunUser (id : Nat)
  | vFunConst (ret : JSVal)

/-- The JavaScript typeof operator on the embedded values.  Note that typeof
null, typeof arrays and typeof class instances are all the string "object". -/
def JSVal.typeof : JSVal → String
  | .vNull => "object"
  | .vUndefined => "undefined"
  | .vBool _ => "boolean"
  | .vNum _ => "number"
  | .vStr _ => "string"
  | .vArr _ => "object"
  | .vObj _ => "object"
  | .vInstance _ _ => "object"
  | .vFunUser _ => "function"
  | .vFunConst _ => "function"

/-- Array.isArray on the embedded values. -/
def JSVal.isArray : JSVal → Bool
  | .vArr _ => true
  | _ => false

/-- JavaScript truthiness: null, undefined, false, 0 and the empty string are
falsy; every object, array and function is truthy. -/
def JSVal.truthy : JSVal → Bool
  | .vNull => false
  | .vUndefined => false
  | .vBool b => b
  | .vNum n => !(n == 0)
  | .vStr s => !(s == "")
  | _ => true

/-- Whether a value is a function (instanceof Function). -/
def JSVal.isFunction : JSVal → Bool
  | .vFunUser _ => true
  | .vFunConst _ => true
  | _ => false

/-- Property indexing on a JavaScript object, modelled as first-match lookup in
an association list (a JavaScript object has unique keys). -/
def lookupA {α : Type} : List (String × α) → String → Option α
  | [], _ => none
  | (k, v) :: rest, key => if k = key then some v else lookupA rest key

/-- Indexing with the JavaScript result for an absent key: undefined. -/
def jsIndex (o : List (String × JSVal)) (k : String) : JSVal :=
  (lookupA o k).getD .vUndefined

/-- The object-spread expression \x7b...a, ...b\x7d: the keys of a in order
(each bound to the b value when b also has the key), followed by the keys of b
that are not in a. -/
def spreadA {α : Type} (a b : List (String × α)) : List (String × α) :=
  (a.map (fun p => (p.1, (lookupA b p.1).getD p.2)))
    ++ b.filter (fun p => (lookupA a p.1).isNone)

/-- The own enumerable fields a value contributes to an object spread and to
the isObject branch of mergeMocks: null contributes nothing, plain objects and
class instances contribute their fields. -/
def objFields : JSVal → List (String × JSVal)
  | .vObj f => f
  | .vInstance _ f => f
  | _ => []

/-- Source function isObject: typeof what is "object" and what is not an
array.  True for plain objects, class instances and also null. -/
def isObject (what : JSVal) : Bool :=
  what.typeof == "object" && !what.isArray

/-- Source function objectMap: map a function over the values of an object,
keeping the keys; the mapping function receives value then key. -/
def objectMap (object : List (String × JSVal)) (mapFn : JSVal → String → JSVal) :
    List (String × JSVal) :=
  object.map (fun p => (p.1, mapFn p.2 p.1))

/-- Source function mergeMocks: spread of the current mocks with the new mocks
mapped so that a key whose current and new values are both isObject receives
the one-level spread of the two, while every other key receives the new value
unchanged. -/
def mergeMocks (currentMocks mocks : List (String × JSVal)) :
    List (String × JSVal) :=
  spreadA currentMocks (objectMap mocks (fun value key =>
    let currentValue := jsIndex currentMocks key
    if isObject currentValue && isObject value then
      .vObj (spreadA (objFields currentValue) (objFields value))
    else
      value))

/-- The asFunction closure inside resolveMocks: pass a function through,
wrap any other value m as the closure returning m. -/
def asFunction (m : JSVal) : JSVal :=
  if m.isFunction then m else .vFunConst m

/-- Source function resolveMocks: normalise every entry of a mock table to a
function. -/
def resolveMocks (mocks : List (String × JSVal)) : List (String × JSVal) :=
  objectMap mocks (fun m _ => asFunction m)

/-- Calling a zero-argument closure produced by resolveMocks yields its stored
value; a user function is uninterpreted here. -/
def call0 : JSVal → Option JSVal
  | .vFunConst v => some v
  | _ => none

/-- The outcome of invoking a user-written operation handler: a returned value
or a thrown value. -/
inductive FnOutcome where
  | ret (v : JSVal)
  | thr (e : JSVal)

/-- An entry of the operation table: a plain value, or a handler function of
the request variables. -/
inductive OpEntry where
  | val (v : JSVal)
  | fn (f : JSVal → FnOutcome)

/-- Truthiness of an operation-table entry: functions are truthy, a value
entry is as truthy as the value. -/
def OpEntry.truthy : OpEntry → Bool
  | .val v => v.truthy
  | .fn _ => true

/-- Truthiness of the indexing expression operations[operationName]: an absent
key yields undefined, which is falsy. -/
def entryTruthy : Option OpEntry → Bool
  | none => false
  | some e => e.truthy

/-- Source function getRootValue: empty mapping when the operation name is
falsy or the table entry is falsy; a function entry is invoked with the
variables and a thrown value is captured and returned; any other entry is
returned directly. -/
def getRootValue (operations : List (String × OpEntry)) (operationName : String)
    (vars : JSVal) : JSVal :=
  if operationName == "" || !(entryTruthy (lookupA operations operationName)) then
    .vObj []
  else
    match lookupA operations operationName with
    | some (.val v) => v
    | some (.fn f) =>
      match f vars with
      | .ret v => v
      | .thr e => e
    | none => .vObj []

/-- The decoded GraphQL request envelope, parsed from the JSON POST body. -/
structure GQLRequestPayload where
  operationName : String
  query : String
  vars : JSVal

/-- The first argument of fetch: either a plain URL string or any other kind
of input (a Request object, a URL object, ...). -/
inductive RequestInput where
  | url (s : String)
  | other

/-- The second, optional argument of fetch; the body is kept as an already
decoded payload, none standing for an absent or non-JSON-decodable body. -/
structure ReqInit where
  method : Option String
  body : Option GQLRequestPayload

/-- A JavaScript runtime error escaping the fetch wrapper. -/
inductive JsError where
  | typeError (msg : String)
  | syntaxError (msg : String)

/-- The observable outcome of one call of the installed fetch wrapper:
delegation to the original fetch with the original arguments, a synthetic
error response after the recorded delay, a call of the graphql executor
(recording every argument handed to the library and the delay applied to its
response), or a runtime error thrown out of the wrapper. -/
inductive FetchResult where
  | passthrough (input : RequestInput) (init : Option ReqInit)
  | errorResponse (body : JSVal) (delay : Nat)
  | graphqlCall (mocks resolvers : List (String × JSVal)) (query : String)
      (vars : JSVal) (operationName : String) (rootValue : JSVal) (delay : Nat)
  | thrown (e : JsError)

/-- The mutable per-test session captured by the fetch closure. -/
structure Session where
  currentDelay : Nat
  currentOps : List (String × OpEntry)
  currentMocks : List (String × JSVal)
  currentResolvers : List (String × JSVal)

/-- The duck-typed GraphQL-error check of the fetch wrapper, collapsing the
instanceof, constructor-identity and constructor-name tests: an instance of a
class named GraphQLError. -/
def isGraphQLErrorLike : JSVal → Bool
  | .vInstance c _ => c == "GraphQLError"
  | _ => false

/-- Evaluation of the error-likeness condition, including the implicit
dereference rootValue.constructor, which throws a TypeError when the root
value is null or undefined. -/
def checkGraphQLError : JSVal → Except JsError Bool
  | .vNull => .error (.typeError "Cannot read properties of null (reading constructor)")
  | .vUndefined => .error (.typeError "Cannot read properties of undefined (reading constructor)")
  | rv => .ok (isGraphQLErrorLike rv)

/-- The init.method check: init && init.method === "POST". -/
def isPost : Option String → Bool
  | some m => m == "POST"
  | none => false

/-- input.indexOf(endpoint) !== -1: the URL contains the endpoint as a
substring. -/
def strContains (s pat : String) : Bool :=
  (List.range (s.toList.length + 1)).any
    (fun i => pat.toList.isPrefixOf (s.toList.drop i))

/-- The mock pipeline of the fetch wrapper, after a request has matched:
compute the root value, check error-likeness (throwing on a null or undefined
root value), either answer the error response \x7b data: \x7b\x7d, errors:
[rootValue] \x7d after the delay, or call the graphql executor with the
resolved spread of the process-wide base mocks and the current mocks, the
current resolvers, and the decoded envelope, its result answered after the
delay. -/
def mockPipeline (commonMocks : JSVal) (s : Session) (p : GQLRequestPayload) :
    FetchResult :=
  let rootValue := getRootValue s.currentOps p.operationName p.vars
  match checkGraphQLError rootValue with
  | .error e => .thrown e
  | .ok true =>
    .errorResponse (.vObj [("data", .vObj []), ("errors", .vArr [rootValue])])
      s.currentDelay
  | .ok false =>
    .graphqlCall (resolveMocks (spreadA (objFields commonMocks) s.currentMocks))
      s.currentResolvers p.query p.vars p.operationName rootValue s.currentDelay

/-- The installed fetch wrapper: pass through unless the input is a URL string
containing the endpoint and the init method is POST; on a match, decode the
body (a JSON decode failure throws) and run the mock pipeline. -/
def fetchModel (endpoint : String) (commonMocks : JSVal) (s : Session)
    (input : RequestInput) (init : Option ReqInit) : FetchResult :=
  match input with
  | .other => .passthrough input init
  | .url u =>
    match init with
    | none => .passthrough input init
    | some i =>
      if strContains u endpoint && isPost i.method then
        match i.body with
        | none => .thrown (.syntaxError "Unexpected token in JSON")
        | some payload => mockPipeline commonMocks s payload
      else
        .passthrough input init

/-- The routing condition of the fetch wrapper: a URL-string input containing
the endpoint, with an init whose method is POST. -/
def shouldIntercept (endpoint : String) (input : RequestInput)
    (init : Option ReqInit) : Bool :=
  match input, init with
  | .url u, some i => strContains u endpoint && isPost i.method
  | _, _ => false

/-- The partial configuration accepted by setOperations (and mockGraphqlOps):
any subset of delay, operations, mocks and resolvers. -/
structure SetOperationsOpts where
  delay : Option Nat
  operations : Option (List (String × OpEntry))
  mocks : Option (List (String × JSVal))
  resolvers : Option (List (String × JSVal))

/-- The setOperations closure: the delay is replaced by options.delay || 0;
the operation table is the plain spread of the current table with the new one;
the resolvers and the mocks, when present, are merged through mergeMocks. -/
def setOperations (options : SetOperationsOpts) (s : Session) : Session :=
  { currentDelay := options.delay.getD 0
    currentOps := spreadA s.currentOps (options.operations.getD [])
    currentResolvers :=
      match options.resolvers with
      | some r => mergeMocks s.currentResolvers r
      | none => s.currentResolvers
    currentMocks :=
      match options.mocks with
      | some m => mergeMocks s.currentMocks m
      | none => s.currentMocks }

/-- The two process-wide singleton slots, both initialised to null. -/
structure GlobalState where
  commonMocks : JSVal
  commonOptions : JSVal

/-- The state at module load: commonMocks = null, commonOptions = null. -/
def initialGlobalState : GlobalState :=
  { commonMocks := .vNull, commonOptions := .vNull }

/-- Source function setBaseGraphqlMocks: store and return the argument when
the slot is still falsy, otherwise throw and leave the slot unchanged. -/
def setBaseGraphqlMocks (mocks : List (String × JSVal)) (g : GlobalState) :
    Except String JSVal × GlobalState :=
  if !g.commonMocks.truthy then
    (.ok (.vObj mocks), { g with commonMocks := .vObj mocks })
  else
    (.error "setBaseGraphqlMocks may only be called once, already called.", g)

/-- Source function setBaseOperationOptions: store and return the argument
when the slot is still falsy, otherwise throw and leave the slot unchanged. -/
def setBaseOperationOptions (options : List (String × JSVal)) (g : GlobalState) :
    Except String JSVal × GlobalState :=
  if !g.commonOptions.truthy then
    (.ok (.vObj options), { g with commonOptions := .vObj options })
  else
    (.error "setBaseOperationOptions may only be called once, already called.", g)

/-- Combine two optional values, keeping the first when present. -/
def firstSome {α : Type} : Option α → Option α → Option α
  | some v, _ => some v
  | none, o => o

theorem lookupA_map_keys {α β : Type} (f : String → α → β) (l : List (String × α))
    (k : String) :
    lookupA (l.map (fun p => (p.1, f p.1 p.2))) k = (lookupA l k).map (f k) := by
  induction l with
  | nil => rfl
  | cons p rest ih =>
    obtain ⟨k1, v1⟩ := p
    by_cases h : k1 = k
    · subst h
      simp [lookupA]
    · simp [lookupA, h, ih]

theorem lookupA_filter_key {α : Type} (q : String → Bool) (l : List (String × α))
    (k : String) :
    lookupA (l.filter (fun p => q p.1)) k = if q k then lookupA l k else none := by
  induction l with
  | nil => simp [lookupA]
  | cons p rest ih =>
    obtain ⟨k1, v1⟩ := p
    by_cases hq : q k1
    · by_cases h : k1 = k
      · subst h
        simp [List.filter_cons, hq, lookupA]
      · simp [List.filter_cons, hq, lookupA, h, ih]
    · by_cases h : k1 = k
      · subst h
        simp [List.filter_cons, hq, lookupA, ih]
      · simp [List.filter_cons, hq, lookupA, h, ih]

theorem lookupA_append {α : Type} (a b : List (String × α)) (k : String) :
    lookupA (a ++ b) k = firstSome (lookupA a k) (lookupA b k) := by
  induction a with
  | nil => rfl
  | cons p rest ih =>
    obtain ⟨k1, v1⟩ := p
    by_cases h : k1 = k
    · subst h
      simp [lookupA, firstSome]
    · simp [lookupA, h, ih]

theorem lookupA_spreadA {α : Type} (a b : List (String × α)) (k : String) :
    lookupA (spreadA a b) k =
      match lookupA a k with
      | some v => some ((lookupA b k).getD v)
      | none => lookupA b k := by
  unfold spreadA
  rw [lookupA_append]
  have h1 : lookupA (a.map (fun p => (p.1, (lookupA b p.1).getD p.2))) k
      = (lookupA a k).map (fun v => (lookupA b k).getD v) := by
    simpa using lookupA_map_keys (fun key v => (lookupA b key).getD v) a k
  have h2 : lookupA (b.filter (fun p => (lookupA a p.1).isNone)) k
      = if (lookupA a k).isNone then lookupA b k else none := by
    simpa using lookupA_filter_key (fun key => (lookupA a key).isNone) b k
  rw [h1, h2]
  cases lookupA a k <;> simp [firstSome]

theorem lookupA_spreadA_over {α : Type} (a b : List (String × α)) (k : String)
    (v : α) (h : lookupA b k = some v) : lookupA (spreadA a b) k = some v := by
  rw [lookupA_spreadA]
  cases lookupA a k <;> simp [h]

theorem lookupA_spreadA_none {α : Type} (a b : List (String × α)) (k : String)
    (h : lookupA b k = none) : lookupA (spreadA a b) k = lookupA a k := by
  rw [lookupA_spreadA]
  cases lookupA a k <;> simp [h]

theorem lookupA_spreadA_isSome {α : Type} (a b : List (String × α)) (k : String) :
    (lookupA (spreadA a b) k).isSome
      = ((lookupA a k).isSome || (lookupA b k).isSome) := by
  rw [lookupA_spreadA]
  cases lookupA a k <;> cases lookupA b k <;> simp

theorem lookupA_objectMap (o : List (String × JSVal)) (f : JSVal → String → JSVal)
    (k : String) :
    lookupA (objectMap o f) k = (lookupA o k).map (fun v => f v k) := by
  unfold objectMap
  simpa using lookupA_map_keys (fun key v => f v key) o k

theorem lookupA_mergeMocks (cur m : List (String × JSVal)) (k : String) :
    lookupA (mergeMocks cur m) k =
      match lookupA m k with
      | some v =>
        some (if isObject (jsIndex cur k) && isObject v then
            .vObj (spreadA (objFields (jsIndex cur k)) (objFields v))
          else v)
      | none => lookupA cur k := by
  unfold mergeMocks
  rw [lookupA_spreadA, lookupA_objectMap]
  cases hm : lookupA m k <;> cases hc : lookupA cur k <;> simp

theorem lookupA_spreadA_firstSome {α : Type} (a b : List (String × α)) (k : String) :
    lookupA (spreadA a b) k = firstSome (lookupA b k) (lookupA a k) := by
  rw [lookupA_spreadA]
  cases ha : lookupA a k <;> cases hb : lookupA b k <;> simp [firstSome]

/-- C1: mergeMocks returns a mapping holding all base keys and all override
keys; on a key present in both mappings, when both values are non-array
object-like values (isObject, that is typeof "object" and not an array) the
result is the one-level spread union of the two with the override fields
winning, and in every other case the result is exactly the override value,
with no recursion and no array concatenation. -/
theorem mergeMocks_spec (base override : List (String × JSVal)) :
    (∀ k, (lookupA (mergeMocks base override) k).isSome
        = ((lookupA base k).isSome || (lookupA override k).isSome))
    ∧ (∀ k b, lookupA base k = some b → lookupA override k = none →
        lookupA (mergeMocks base override) k = some b)
    ∧ (∀ k o, lookupA base k = none → lookupA override k = some o →
        lookupA (mergeMocks base override) k = some o)
    ∧ (∀ k b o, lookupA base k = some b → lookupA override k = some o →
        (isObject b && isObject o) = true →
          lookupA (mergeMocks base override) k
              = some (.vObj (spreadA (objFields b) (objFields o)))
            ∧ (∀ k2, lookupA (spreadA (objFields b) (objFields o)) k2
                = firstSome (lookupA (objFields o) k2) (lookupA (objFields b) k2)))
    ∧ (∀ k b o, lookupA base k = some b → lookupA override k = some o →
        (isObject b && isObject o) = false →
          lookupA (mergeMocks base override) k = some o) := by
  refine ⟨?_, ?_, ?_, ?_, ?_⟩
  · intro k
    rw [lookupA_mergeMocks]
    cases ho : lookupA override k <;> cases hb : lookupA base k <;> simp [hb]
  · intro k b hb ho
    rw [lookupA_mergeMocks, ho, hb]
  · intro k o hb ho
    rw [lookupA_mergeMocks, ho]
    have hj : jsIndex base k = .vUndefined := by simp [jsIndex, hb]
    simp [hj, isObject, JSVal.typeof, JSVal.isArray]
  · intro k b o hb ho hobj
    have hj : jsIndex base k = b := by simp [jsIndex, hb]
    constructor
    · rw [lookupA_mergeMocks, ho, hj]
      simp [hobj]
    · intro k2
      exact lookupA_spreadA_firstSome _ _ k2
  · intro k b o hb ho hobj
    have hj : jsIndex base k = b := by simp [jsIndex, hb]
    rw [lookupA_mergeMocks, ho, hj]
    simp [hobj]

/-- C3: when the operation name is empty or absent from the operation table,
getRootValue returns the empty object, for any variables input. -/
theorem getRootValue_absent (ops : List (String × OpEntry)) (name : String)
    (vars : JSVal) (h : name = "" ∨ lookupA ops name = none) :
    getRootValue ops name vars = .vObj [] := by
  unfold getRootValue
  rcases h with h | h
  · subst h
    simp
  · simp [h, entryTruthy]

/-- C4, counterexample: the entry 0 for operation A is a present non-function
value, yet getRootValue yields the empty object rather than 0, because the
source also treats a falsy table entry as an absent one. -/
theorem getRootValue_literal_counterexample :
    getRootValue [("A", OpEntry.val (.vNum 0))] "A" .vNull = .vObj []
      ∧ JSVal.vObj [] ≠ JSVal.vNum 0 :=
  ⟨rfl, fun h => JSVal.noConfusion h⟩

/-- C4, amended: when the entry for a present operation name is a truthy
non-function value, getRootValue returns that value directly, for any
variables input; a falsy entry instead yields the empty object. -/
theorem getRootValue_literal (ops : List (String × OpEntry)) (name : String)
    (vars : JSVal) (v : JSVal) (hname : name ≠ "")
    (hlook : lookupA ops name = some (.val v)) (htruthy : v.truthy = true) :
    getRootValue ops name vars = v := by
  unfold getRootValue
  have hne : (name == "") = false := by simp [hname]
  simp [hlook, entryTruthy, OpEntry.truthy, htruthy, hne]

/-- C7: resolveMocks keeps exactly the keys of its input; an entry that is a
function passes through unchanged; an entry that is a literal becomes the
zero-argument closure whose invocation returns the literal unchanged (in
particular nothing recurses into nested object values). -/
theorem resolveMocks_spec (M : List (String × JSVal)) :
    ((resolveMocks M).map Prod.fst = M.map Prod.fst)
    ∧ (∀ k v, lookupA M k = some v → v.isFunction = true →
        lookupA (resolveMocks M) k = some v)
    ∧ (∀ k v, lookupA M k = some v → v.isFunction = false →
        lookupA (resolveMocks M) k = some (.vFunConst v)
          ∧ call0 (.vFunConst v) = some v) := by
  refine ⟨?_, ?_, ?_⟩
  · simp [resolveMocks, objectMap]
  · intro k v h hf
    have := lookupA_objectMap M (fun m _ => asFunction m) k
    rw [show resolveMocks M = objectMap M (fun m _ => asFunction m) from rfl,
      this, h]
    simp [asFunction, hf]
  · intro k v h hf
    have := lookupA_objectMap M (fun m _ => asFunction m) k
    rw [show resolveMocks M = objectMap M (fun m _ => asFunction m) from rfl,
      this, h]
    simp [asFunction, hf, call0]

theorem fetchModel_post_eq (endpoint url : String) (cm : JSVal) (s : Session)
    (p : GQLRequestPayload) (hurl : strContains url endpoint = true) :
    fetchModel endpoint cm s (.url url) (some ⟨some "POST", some p⟩)
      = mockPipeline cm s p := by
  simp [fetchModel, hurl, isPost]

theorem checkGraphQLError_errorLike (E : JSVal)
    (herr : isGraphQLErrorLike E = true) : checkGraphQLError E = .ok true := by
  cases E <;> simp_all [isGraphQLErrorLike, checkGraphQLError]

theorem checkGraphQLError_of_ne (rv : JSVal) (h1 : rv ≠ .vNull)
    (h2 : rv ≠ .vUndefined) :
    checkGraphQLError rv = .ok (isGraphQLErrorLike rv) := by
  cases rv <;> simp_all [checkGraphQLError]

theorem mockPipeline_ne_passthrough (cm : JSVal) (s : Session)
    (p : GQLRequestPayload) (a : RequestInput) (b : Option ReqInit) :
    mockPipeline cm s p ≠ .passthrough a b := by
  unfold mockPipeline
  cases h : checkGraphQLError (getRootValue s.currentOps p.operationName p.vars) with
  | error e => simp [h]
  | ok bb => cases bb <;> simp [h]

theorem getRootValue_throw (ops : List (String × OpEntry)) (name : String)
    (vars : JSVal) (f : JSVal → FnOutcome) (E : JSVal) (hname : name ≠ "")
    (hop : lookupA ops name = some (.fn f)) (hthrow : f vars = .thr E) :
    getRootValue ops name vars = E := by
  unfold getRootValue
  have hne : (name == "") = false := by simp [hname]
  simp [hop, entryTruthy, OpEntry.truthy, hne, hthrow]

/-- C2: when the handler for the requested operation throws any value E,
getRootValue returns E unchanged rather than re-throwing it, and when E is
moreover GraphQL-error-like the matching intercepted POST request is answered
with the body consisting of an empty data object and the single-element
errors array [E], carrying the configured delay. -/
theorem handlerThrow_spec (endpoint url : String) (cm : JSVal) (s : Session)
    (p : GQLRequestPayload) (f : JSVal → FnOutcome) (E : JSVal)
    (hname : p.operationName ≠ "")
    (hop : lookupA s.currentOps p.operationName = some (.fn f))
    (hthrow : f p.vars = .thr E)
    (hurl : strContains url endpoint = true) :
    getRootValue s.currentOps p.operationName p.vars = E
    ∧ (isGraphQLErrorLike E = true →
        fetchModel endpoint cm s (.url url) (some ⟨some "POST", some p⟩)
          = .errorResponse (.vObj [("data", .vObj []), ("errors", .vArr [E])])
              s.currentDelay) := by
  have hroot : getRootValue s.currentOps p.operationName p.vars = E :=
    getRootValue_throw _ _ _ _ _ hname hop hthrow
  refine ⟨hroot, fun herr => ?_⟩
  rw [fetchModel_post_eq _ _ _ _ _ hurl]
  simp only [mockPipeline, hroot, checkGraphQLError_errorLike E herr]

/-- C5: from the initial process state, each of setBaseGraphqlMocks and
setBaseOperationOptions succeeds on its first invocation, storing and
returning the argument, and any second invocation throws while the stored
value of the first invocation stays unchanged. -/
theorem setBase_once (m1 m2 o1 o2 : List (String × JSVal)) :
    (setBaseGraphqlMocks m1 initialGlobalState).1 = .ok (.vObj m1)
    ∧ (setBaseGraphqlMocks m1 initialGlobalState).2.commonMocks = .vObj m1
    ∧ (∃ msg, (setBaseGraphqlMocks m2
        (setBaseGraphqlMocks m1 initialGlobalState).2).1 = .error msg)
    ∧ (setBaseGraphqlMocks m2
        (setBaseGraphqlMocks m1 initialGlobalState).2).2.commonMocks = .vObj m1
    ∧ (setBaseOperationOptions o1 initialGlobalState).1 = .ok (.vObj o1)
    ∧ (setBaseOperationOptions o1 initialGlobalState).2.commonOptions = .vObj o1
    ∧ (∃ msg, (setBaseOperationOptions o2
        (setBaseOperationOptions o1 initialGlobalState).2).1 = .error msg)
    ∧ (setBaseOperationOptions o2
        (setBaseOperationOptions o1 initialGlobalState).2).2.commonOptions
        = .vObj o1 :=
  ⟨rfl, rfl, ⟨_, rfl⟩, rfl, rfl, rfl, ⟨_, rfl⟩, rfl⟩

/-- C6: the installed fetch wrapper passes the request through to the original
fetch with the original arguments exactly when the routing condition fails
(non-string input, or endpoint not a substring of the URL, or method not
POST); when the condition holds the call is routed into the mock pipeline and
never reaches the original fetch. -/
theorem fetch_routing_spec (endpoint : String) (cm : JSVal) (s : Session)
    (input : RequestInput) (init : Option ReqInit) :
    (shouldIntercept endpoint input init = false →
        fetchModel endpoint cm s input init = .passthrough input init)
    ∧ (shouldIntercept endpoint input init = true →
        ∀ a b, fetchModel endpoint cm s input init ≠ .passthrough a b) := by
  constructor
  · intro h
    cases input with
    | other => rfl
    | url u =>
      cases init with
      | none => rfl
      | some i =>
        simp only [shouldIntercept] at h
        simp [fetchModel, h]
  · intro h a b
    cases input with
    | other => simp [shouldIntercept] at h
    | url u =>
      cases init with
      | none => simp [shouldIntercept] at h
      | some i =>
        simp only [shouldIntercept] at h
        simp only [fetchModel, h, if_true]
        cases hb : i.body with
        | none => simp
        | some payload => exact mockPipeline_ne_passthrough cm s payload a b

/-- C8: applying a partial override through setOperations replaces the delay
wholesale (zero when omitted), updates the operation table by plain shallow
override with the new entries winning unchanged, and merges the mock table and
the resolver table, when provided, through mergeMocks, leaving them unchanged
otherwise. -/
theorem setOperations_spec (s : Session) (o : SetOperationsOpts) :
    (setOperations o s).currentDelay = o.delay.getD 0
    ∧ (∀ k e, lookupA (o.operations.getD []) k = some e →
        lookupA (setOperations o s).currentOps k = some e)
    ∧ (∀ k, lookupA (o.operations.getD []) k = none →
        lookupA (setOperations o s).currentOps k = lookupA s.currentOps k)
    ∧ (∀ m, o.mocks = some m →
        (setOperations o s).currentMocks = mergeMocks s.currentMocks m)
    ∧ (o.mocks = none → (setOperations o s).currentMocks = s.currentMocks)
    ∧ (∀ r, o.resolvers = some r →
        (setOperations o s).currentResolvers = mergeMocks s.currentResolvers r)
    ∧ (o.resolvers = none →
        (setOperations o s).currentResolvers = s.currentResolvers) := by
  refine ⟨rfl, ?_, ?_, ?_, ?_, ?_, ?_⟩
  · intro k e h
    exact lookupA_spreadA_over s.currentOps (o.operations.getD []) k e h
  · intro k h
    exact lookupA_spreadA_none s.currentOps (o.operations.getD []) k h
  · intro m h
    simp [setOperations, h]
  · intro h
    simp [setOperations, h]
  · intro r h
    simp [setOperations, h]
  · intro h
    simp [setOperations, h]

/-- C9: on a matching request, whenever the resolved root value is null or
undefined the wrapper dereferences constructor on it and throws a TypeError
instead of producing any response, and whenever the root value is neither null
nor undefined the error check never throws. -/
theorem fetch_nullRoot_spec (endpoint url : String) (cm : JSVal) (s : Session)
    (p : GQLRequestPayload) (hurl : strContains url endpoint = true) :
    ((getRootValue s.currentOps p.operationName p.vars = .vNull
        ∨ getRootValue s.currentOps p.operationName p.vars = .vUndefined) →
      ∃ msg, fetchModel endpoint cm s (.url url) (some ⟨some "POST", some p⟩)
          = .thrown (.typeError msg))
    ∧ ((getRootValue s.currentOps p.operationName p.vars ≠ .vNull
        ∧ getRootValue s.currentOps p.operationName p.vars ≠ .vUndefined) →
      ∀ e, fetchModel endpoint cm s (.url url) (some ⟨some "POST", some p⟩)
          ≠ .thrown e) := by
  rw [fetchModel_post_eq _ _ _ _ _ hurl]
  constructor
  · intro h
    rcases h with h | h <;> simp only [mockPipeline, h, checkGraphQLError]
      <;> exact ⟨_, rfl⟩
  · intro h e
    simp only [mockPipeline, checkGraphQLError_of_ne _ h.1 h.2]
    cases isGraphQLErrorLike (getRootValue s.currentOps p.operationName p.vars)
      <;> simp

/-- C10: on a matching request that reaches GraphQL execution, the mock table
handed to the library is the resolution of the plain top-level spread of the
process-wide base mocks with the current mocks (the current entry replacing a
base entry wholesale, unlike the one-level-deep mergeMocks, as the two
concrete clauses exhibit), and the resolver table handed over is exactly the
current resolver table, never combined with any process-wide base. -/
theorem fetch_mockSpread_spec (endpoint url : String) (cm : JSVal) (s : Session)
    (p : GQLRequestPayload) (hurl : strContains url endpoint = true)
    (h1 : getRootValue s.currentOps p.operationName p.vars ≠ .vNull)
    (h2 : getRootValue s.currentOps p.operationName p.vars ≠ .vUndefined)
    (h3 : isGraphQLErrorLike (getRootValue s.currentOps p.operationName p.vars)
        = false) :
    fetchModel endpoint cm s (.url url) (some ⟨some "POST", some p⟩)
      = .graphqlCall (resolveMocks (spreadA (objFields cm) s.currentMocks))
          s.currentResolvers p.query p.vars p.operationName
          (getRootValue s.currentOps p.operationName p.vars) s.currentDelay
    ∧ (∀ k v, lookupA s.currentMocks k = some v →
        lookupA (spreadA (objFields cm) s.currentMocks) k = some v)
    ∧ lookupA (spreadA [("User", JSVal.vObj [("name", .vStr "A"), ("age", .vNum 1)])]
          [("User", JSVal.vObj [("name", .vStr "B")])]) "User"
        = some (.vObj [("name", .vStr "B")])
    ∧ lookupA (mergeMocks [("User", JSVal.vObj [("name", .vStr "A"), ("age", .vNum 1)])]
          [("User", JSVal.vObj [("name", .vStr "B")])]) "User"
        = some (.vObj [("name", .vStr "B"), ("age", .vNum 1)]) := by
  refine ⟨?_, ?_, rfl, rfl⟩
  · rw [fetchModel_post_eq _ _ _ _ _ hurl]
    simp only [mockPipeline, checkGraphQLError_of_ne _ h1 h2, h3]
  · intro k v h
    exact lookupA_spreadA_over (objFields cm) s.currentMocks k v h

/-- Witness for C1 at two one-key tables whose values are both objects. -/
theorem mergeMocks_spec_witness :
    lookupA (mergeMocks [("k", JSVal.vObj [("a", JSVal.vNum 1)])]
        [("k", JSVal.vObj [("b", JSVal.vNum 2)])]) "k"
      = some (.vObj (spreadA (objFields (JSVal.vObj [("a", JSVal.vNum 1)]))
          (objFields (JSVal.vObj [("b", JSVal.vNum 2)]))))
    ∧ spreadA (objFields (JSVal.vObj [("a", JSVal.vNum 1)]))
        (objFields (JSVal.vObj [("b", JSVal.vNum 2)]))
      = [("a", JSVal.vNum 1), ("b", JSVal.vNum 2)] :=
  ⟨((mergeMocks_spec [("k", JSVal.vObj [("a", JSVal.vNum 1)])]
      [("k", JSVal.vObj [("b", JSVal.vNum 2)])]).2.2.2.1 "k"
      (JSVal.vObj [("a", JSVal.vNum 1)]) (JSVal.vObj [("b", JSVal.vNum 2)])
      rfl rfl rfl).1, rfl⟩

/-- Witness for C2: a handler that throws a plain string has it returned as
the root value unchanged, and a handler that throws a GraphQLError instance
yields the error response with the configured delay. -/
theorem handlerThrow_spec_witness :
    getRootValue [("Fails", OpEntry.fn (fun _ => .thr (JSVal.vStr "oops")))]
        "Fails" (JSVal.vObj [])
      = JSVal.vStr "oops"
    ∧ fetchModel "/graphql" JSVal.vNull
        ⟨7, [("Fails", OpEntry.fn (fun _ =>
            .thr (.vInstance "GraphQLError" [("message", JSVal.vStr "boom")])))],
          [], []⟩
        (.url "http://test/graphql")
        (some ⟨some "POST", some ⟨"Fails", "query Fails", JSVal.vObj []⟩⟩)
      = .errorResponse (.vObj [("data", .vObj []),
          ("errors", .vArr [.vInstance "GraphQLError"
            [("message", JSVal.vStr "boom")]])]) 7 :=
  ⟨(handlerThrow_spec "/graphql" "http://test/graphql" JSVal.vNull
      ⟨7, [("Fails", OpEntry.fn (fun _ => .thr (JSVal.vStr "oops")))], [], []⟩
      ⟨"Fails", "query Fails", JSVal.vObj []⟩
      (fun _ => .thr (JSVal.vStr "oops")) (JSVal.vStr "oops")
      (by decide) rfl rfl (by decide)).1,
   (handlerThrow_spec "/graphql" "http://test/graphql" JSVal.vNull
      ⟨7, [("Fails", OpEntry.fn (fun _ =>
          .thr (.vInstance "GraphQLError" [("message", JSVal.vStr "boom")])))],
        [], []⟩
      ⟨"Fails", "query Fails", JSVal.vObj []⟩
      (fun _ => .thr (.vInstance "GraphQLError" [("message", JSVal.vStr "boom")]))
      (.vInstance "GraphQLError" [("message", JSVal.vStr "boom")])
      (by decide) rfl rfl (by decide)).2 rfl⟩

/-- Witness for C3 at an operation name absent from a one-key table. -/
theorem getRootValue_absent_witness :
    getRootValue [("Ping", OpEntry.val (JSVal.vNum 1))] "Pong" JSVal.vNull
      = JSVal.vObj [] :=
  getRootValue_absent [("Ping", OpEntry.val (JSVal.vNum 1))] "Pong" JSVal.vNull
    (Or.inr rfl)

/-- Witness for the amended C4 at a truthy object entry. -/
theorem getRootValue_literal_witness :
    getRootValue [("UserQuery", OpEntry.val (JSVal.vObj [("viewer", JSVal.vNull)]))]
        "UserQuery" (JSVal.vObj [])
      = JSVal.vObj [("viewer", JSVal.vNull)] :=
  getRootValue_literal [("UserQuery", OpEntry.val (JSVal.vObj [("viewer", JSVal.vNull)]))]
    "UserQuery" (JSVal.vObj []) (JSVal.vObj [("viewer", JSVal.vNull)])
    (by decide) rfl rfl

/-- Witness for C6: a GET request to the endpoint passes through, a POST
request to the endpoint never does. -/
theorem fetch_routing_spec_witness :
    fetchModel "/graphql" JSVal.vNull ⟨0, [], [], []⟩
        (.url "http://test/graphql")
        (some ⟨some "GET", some ⟨"Q", "q", JSVal.vObj []⟩⟩)
      = .passthrough (.url "http://test/graphql")
          (some ⟨some "GET", some ⟨"Q", "q", JSVal.vObj []⟩⟩)
    ∧ ∀ a b, fetchModel "/graphql" JSVal.vNull ⟨0, [], [], []⟩
        (.url "http://test/graphql")
        (some ⟨some "POST", some ⟨"Q", "q", JSVal.vObj []⟩⟩)
      ≠ .passthrough a b :=
  ⟨(fetch_routing_spec "/graphql" JSVal.vNull ⟨0, [], [], []⟩
      (.url "http://test/graphql")
      (some ⟨some "GET", some ⟨"Q", "q", JSVal.vObj []⟩⟩)).1 (by decide),
   fun a b => (fetch_routing_spec "/graphql" JSVal.vNull ⟨0, [], [], []⟩
      (.url "http://test/graphql")
      (some ⟨some "POST", some ⟨"Q", "q", JSVal.vObj []⟩⟩)).2 (by decide) a b⟩

/-- Witness for C7 on a table with one function entry and one literal entry. -/
theorem resolveMocks_spec_witness :
    lookupA (resolveMocks [("EnumField", JSVal.vFunUser 0),
        ("User", JSVal.vObj [("name", JSVal.vStr "Test User")])]) "EnumField"
      = some (JSVal.vFunUser 0)
    ∧ lookupA (resolveMocks [("EnumField", JSVal.vFunUser 0),
        ("User", JSVal.vObj [("name", JSVal.vStr "Test User")])]) "User"
      = some (.vFunConst (JSVal.vObj [("name", JSVal.vStr "Test User")]))
    ∧ call0 (JSVal.vFunConst (JSVal.vObj [("name", JSVal.vStr "Test User")]))
      = some (JSVal.vObj [("name", JSVal.vStr "Test User")]) :=
  ⟨(resolveMocks_spec [("EnumField", JSVal.vFunUser 0),
      ("User", JSVal.vObj [("name", JSVal.vStr "Test User")])]).2.1 "EnumField"
      (JSVal.vFunUser 0) rfl rfl,
   ((resolveMocks_spec [("EnumField", JSVal.vFunUser 0),
      ("User", JSVal.vObj [("name", JSVal.vStr "Test User")])]).2.2 "User"
      (JSVal.vObj [("name", JSVal.vStr "Test User")]) rfl rfl).1,
   ((resolveMocks_spec [("EnumField", JSVal.vFunUser 0),
      ("User", JSVal.vObj [("name", JSVal.vStr "Test User")])]).2.2 "User"
      (JSVal.vObj [("name", JSVal.vStr "Test User")]) rfl rfl).2⟩

/-- Witness for C8: an override with no delay, a new operation entry, a mock
override and no resolver override. -/
theorem setOperations_spec_witness :
    (setOperations
        ⟨none, some [("Q", OpEntry.val (JSVal.vNum 2))],
          some [("User", JSVal.vObj [("name", JSVal.vStr "B")])], none⟩
        ⟨5, [("Q", OpEntry.val (JSVal.vNum 1))],
          [("User", JSVal.vObj [("name", JSVal.vStr "A"), ("age", JSVal.vNum 1)])],
          [("r", JSVal.vFunUser 3)]⟩).currentDelay = 0
    ∧ lookupA (setOperations
        ⟨none, some [("Q", OpEntry.val (JSVal.vNum 2))],
          some [("User", JSVal.vObj [("name", JSVal.vStr "B")])], none⟩
        ⟨5, [("Q", OpEntry.val (JSVal.vNum 1))],
          [("User", JSVal.vObj [("name", JSVal.vStr "A"), ("age", JSVal.vNum 1)])],
          [("r", JSVal.vFunUser 3)]⟩).currentOps "Q"
      = some (OpEntry.val (JSVal.vNum 2))
    ∧ (setOperations
        ⟨none, some [("Q", OpEntry.val (JSVal.vNum 2))],
          some [("User", JSVal.vObj [("name", JSVal.vStr "B")])], none⟩
        ⟨5, [("Q", OpEntry.val (JSVal.vNum 1))],
          [("User", JSVal.vObj [("name", JSVal.vStr "A"), ("age", JSVal.vNum 1)])],
          [("r", JSVal.vFunUser 3)]⟩).currentMocks
      = mergeMocks
          [("User", JSVal.vObj [("name", JSVal.vStr "A"), ("age", JSVal.vNum 1)])]
          [("User", JSVal.vObj [("name", JSVal.vStr "B")])]
    ∧ (setOperations
        ⟨none, some [("Q", OpEntry.val (JSVal.vNum 2))],
          some [("User", JSVal.vObj [("name", JSVal.vStr "B")])], none⟩
        ⟨5, [("Q", OpEntry.val (JSVal.vNum 1))],
          [("User", JSVal.vObj [("name", JSVal.vStr "A"), ("age", JSVal.vNum 1)])],
          [("r", JSVal.vFunUser 3)]⟩).currentResolvers
      = [("r", JSVal.vFunUser 3)] :=
  ⟨(setOperations_spec
      ⟨5, [("Q", OpEntry.val (JSVal.vNum 1))],
        [("User", JSVal.vObj [("name", JSVal.vStr "A"), ("age", JSVal.vNum 1)])],
        [("r", JSVal.vFunUser 3)]⟩
      ⟨none, some [("Q", OpEntry.val (JSVal.vNum 2))],
        some [("User", JSVal.vObj [("name", JSVal.vStr "B")])], none⟩).1,
   (setOperations_spec
      ⟨5, [("Q", OpEntry.val (JSVal.vNum 1))],
        [("User", JSVal.vObj [("name", JSVal.vStr "A"), ("age", JSVal.vNum 1)])],
        [("r", JSVal.vFunUser 3)]⟩
      ⟨none, some [("Q", OpEntry.val (JSVal.vNum 2))],
        some [("User", JSVal.vObj [("name", JSVal.vStr "B")])], none⟩).2.1 "Q"
      (OpEntry.val (JSVal.vNum 2)) rfl,
   (setOperations_spec
      ⟨5, [("Q", OpEntry.val (JSVal.vNum 1))],
        [("User", JSVal.vObj [("name", JSVal.vStr "A"), ("age", JSVal.vNum 1)])],
        [("r", JSVal.vFunUser 3)]⟩
      ⟨none, some [("Q", OpEntry.val (JSVal.vNum 2))],
        some [("User", JSVal.vObj [("name", JSVal.vStr "B")])], none⟩).2.2.2.1
      [("User", JSVal.vObj [("name", JSVal.vStr "B")])] rfl,
   (setOperations_spec
      ⟨5, [("Q", OpEntry.val (JSVal.vNum 1))],
        [("User", JSVal.vObj [("name", JSVal.vStr "A"), ("age", JSVal.vNum 1)])],
        [("r", JSVal.vFunUser 3)]⟩
      ⟨none, some [("Q", OpEntry.val (JSVal.vNum 2))],
        some [("User", JSVal.vObj [("name", JSVal.vStr "B")])], none⟩).2.2.2.2.2.2
      rfl⟩

/-- Witness for C9: a handler returning undefined makes the wrapper throw a
TypeError. -/
theorem fetch_nullRoot_spec_witness :
    ∃ msg, fetchModel "/graphql" JSVal.vNull
        ⟨0, [("Q", OpEntry.fn (fun _ => .ret JSVal.vUndefined))], [], []⟩
        (.url "http://test/graphql")
        (some ⟨some "POST", some ⟨"Q", "query Q", JSVal.vObj []⟩⟩)
      = .thrown (.typeError msg) :=
  (fetch_nullRoot_spec "/graphql" "http://test/graphql" JSVal.vNull
      ⟨0, [("Q", OpEntry.fn (fun _ => .ret JSVal.vUndefined))], [], []⟩
      ⟨"Q", "query Q", JSVal.vObj []⟩ (by decide)).1 (Or.inr rfl)

/-- Witness for C10: base mocks present, unconfigured operation, executing
request. -/
theorem fetch_mockSpread_spec_witness :
    fetchModel "/graphql" (JSVal.vObj [("EnumField", JSVal.vFunUser 0)])
        ⟨3, [], [("User", JSVal.vObj [("name", JSVal.vStr "B")])],
          [("r", JSVal.vFunUser 1)]⟩
        (.url "http://test/graphql")
        (some ⟨some "POST", some ⟨"Q", "query Q", JSVal.vObj []⟩⟩)
      = .graphqlCall
          (resolveMocks (spreadA
            (objFields (JSVal.vObj [("EnumField", JSVal.vFunUser 0)]))
            [("User", JSVal.vObj [("name", JSVal.vStr "B")])]))
          [("r", JSVal.vFunUser 1)] "query Q" (JSVal.vObj []) "Q"
          (JSVal.vObj []) 3 :=
  (fetch_mockSpread_spec "/graphql" "http://test/graphql"
      (JSVal.vObj [("EnumField", JSVal.vFunUser 0)])
      ⟨3, [], [("User", JSVal.vObj [("name", JSVal.vStr "B")])],
        [("r", JSVal.vFunUser 1)]⟩
      ⟨"Q", "query Q", JSVal.vObj []⟩ (by decide)
      (by simp [getRootValue, entryTruthy, lookupA])
      (by simp [getRootValue, entryTruthy, lookupA]) rfl).1

end CypressGraphqlMock
